import Mathlib

/-!
Verification of the scale-from-zero gate in `gateway/handlers/scaling.go`
(the OpenFaaS gateway's scaling handler).

The embedding is shallow: the external `ServiceQuery` collaborator is an
oracle (`Env`) giving the outcome of each `GetReplicas` call in call order
and the outcome of the (at most one) `SetReplicas` call; Go `error` values
are modelled by their message text, with `none` for the nil error.
`Scale` returns, besides the `FunctionScaleResult` the Go function builds,
a trace of its effects: the cache writes performed through
`FunctionCache.Set`, the number of `GetReplicas` calls issued and the
`SetReplicas` calls issued.  Wall-clock quantities (`Duration`, the sleep
between polls, the cache TTL) are not modelled; no claim below depends on
them.
-/

namespace Faas

/-- The fields of `scaling.ServiceQueryResponse` that `scaling.go` reads
(`AvailableReplicas`, `MinReplicas`); both are `uint64` in Go, modelled as
`Nat` since the code only compares them and never does arithmetic. -/
structure ServiceQueryResponse where
  availableReplicas : Nat
  minReplicas : Nat
deriving DecidableEq, Repr

/-- A Go `error` value, modelled by its message text. -/
abbrev GoError := String

/-- How `fmt` renders an error verb argument: the message for a non-nil
error, and the literal `%!s(<nil>)` for a nil one. -/
def errFmt : Option GoError → String
  | some s => s
  | none => "%!s(<nil>)"

/-- The message built by
`fmt.Errorf("unable to scale function [%s], err: %s", functionName, err)`. -/
def scaleErrMessage (functionName : String) (e : Option GoError) : String :=
  "unable to scale function [" ++ functionName ++ "], err: " ++ errFmt e

/-- The Go structure `FunctionScaleResult` without its wall-clock
`Duration` field. -/
structure FunctionScaleResult where
  available : Bool
  error : Option GoError
  found : Bool
deriving DecidableEq, Repr

/-- The external `ServiceQuery` collaborator as an oracle: `get k` is the
outcome of the k-th `GetReplicas` call of the `Scale` invocation (call 0 is
the initial query, call k the (k-1)-th polling query), and `set` the
outcome of the `SetReplicas` call, were one issued. -/
structure Env where
  get : Nat → ServiceQueryResponse × Option GoError
  set : Option GoError

/-- The configuration `ScalingConfig`, keeping the field the control flow
reads (`MaxPollCount`); `FunctionPollInterval` and `CacheExpiry` only feed
`time.Sleep` and the cache TTL, which are not modelled. -/
structure ScalingConfig where
  maxPollCount : Nat
deriving DecidableEq, Repr

/-- What one `Scale` call returns and does: its result, the `Cache.Set`
writes in order, how many `GetReplicas` calls it made and which
`SetReplicas` calls it issued. -/
structure ScaleOutcome where
  result : FunctionScaleResult
  cacheWrites : List (String × ServiceQueryResponse)
  getCount : Nat
  setCalls : List (String × Nat)
deriving DecidableEq, Repr

/-- The polling loop of `Scale`
(`for i := 0; i < int(f.Config.MaxPollCount); i++`).  `idx` is the index of
the next `GetReplicas` call, the second argument the remaining iterations.
Returns the result the loop returns early (or `none` when it exhausts its
budget and falls through), the cache writes it performed and the number of
`GetReplicas` calls it made.  The write happens before the error check,
exactly as in the source. -/
def pollLoop (functionName : String)
    (get : Nat → ServiceQueryResponse × Option GoError) :
    Nat → Nat → Option FunctionScaleResult × List (String × ServiceQueryResponse) × Nat
  | _, 0 => (none, [], 0)
  | idx, n + 1 =>
    let (queryResponse, err) := get idx
    let write := (functionName, queryResponse)
    match err with
    | some e => (some ⟨false, some e, true⟩, [write], 1)
    | none =>
      if queryResponse.availableReplicas > 0 then
        (some ⟨true, none, true⟩, [write], 1)
      else
        let (r, ws, g) := pollLoop functionName get (idx + 1) n
        (r, write :: ws, g + 1)

/-- The method `(*FunctionScaler).Scale` from `gateway/handlers/scaling.go`.
In the `setScaleErr != nil` branch the source interpolates the outer query
error `err` — which is nil on that path — into the message, not
`setScaleErr` itself; the embedding reproduces that with
`scaleErrMessage functionName none`.  When the polling loop exhausts its
budget, control falls through to the function's final `return`, whose
literal reads `{Error: nil, Available: true, Found: true}`. -/
def Scale (cfg : ScalingConfig) (env : Env) (functionName : String) : ScaleOutcome :=
  let (queryResponse, err) := env.get 0
  match err with
  | some e =>
    { result := ⟨false, some e, false⟩
      cacheWrites := []
      getCount := 1
      setCalls := [] }
  | none =>
    let w0 := (functionName, queryResponse)
    if queryResponse.availableReplicas == 0 then
      let minReplicas := if queryResponse.minReplicas > 0 then queryResponse.minReplicas else 1
      match env.set with
      | some _ =>
        { result := ⟨false, some (scaleErrMessage functionName none), true⟩
          cacheWrites := [w0]
          getCount := 1
          setCalls := [(functionName, minReplicas)] }
      | none =>
        let (r, ws, g) := pollLoop functionName env.get 1 cfg.maxPollCount
        { result := r.getD ⟨true, none, true⟩
          cacheWrites := w0 :: ws
          getCount := 1 + g
          setCalls := [(functionName, minReplicas)] }
    else
      { result := ⟨true, none, true⟩
        cacheWrites := [w0]
        getCount := 1
        setCalls := [] }

/-- What the closure returned by `MakeScalingHandler` does with the
`FunctionScaleResult` of a request. -/
inductive HandlerAction where
  /-- The writes `w.WriteHeader(status); w.Write([]byte(body))` followed by
  `return` — the downstream handler is not invoked. -/
  | respond (status : Nat) (body : String)
  /-- The call `next.ServeHTTP(w, r)`. -/
  | forward
  /-- The fall-through past all three checks: only a timed-out log line,
  no response written, downstream not invoked. -/
  | silentTimeout
  /-- The run-time panic Go would raise calling `res.Error.Error()` on a
  nil error. -/
  | nilErrorDeref
deriving DecidableEq, Repr

/-- The body `fmt.Sprintf("error finding function %s: %s", functionName,
res.Error.Error())`. -/
def notFoundBody (functionName : String) (errText : String) : String :=
  "error finding function " ++ functionName ++ ": " ++ errText

/-- The decision logic of the closure returned by `MakeScalingHandler`:
`!res.Found` responds 404 (`http.StatusNotFound`) with `notFoundBody`;
else `res.Error != nil` responds 500 (`http.StatusInternalServerError`)
with the same body shape; else `res.Available` forwards to `next`; else
control falls off the end having written nothing. -/
def scalingHandler (functionName : String) (res : FunctionScaleResult) : HandlerAction :=
  if res.found = false then
    match res.error with
    | none => .nilErrorDeref
    | some e => .respond 404 (notFoundBody functionName e)
  else
    match res.error with
    | some e => .respond 500 (notFoundBody functionName e)
    | none => if res.available then .forward else .silentTimeout

/-- String `small` occurs as a substring of `big`. -/
def strContains (small big : String) : Prop :=
  ∃ s t, big = s ++ small ++ t

/-- An oracle on which every `GetReplicas` call succeeds with zero
available replicas and `SetReplicas` succeeds: the polling loop times
out. -/
def timeoutEnv : Env where
  get := fun _ => (⟨0, 0⟩, none)
  set := none

/-- An oracle on which the initial `GetReplicas` succeeds with zero
available replicas and `SetReplicas` fails with message `boom`. -/
def setFailEnv : Env where
  get := fun _ => (⟨0, 0⟩, none)
  set := some "boom"

/-- An oracle on which the initial `GetReplicas` succeeds with zero
available replicas, `SetReplicas` succeeds, and the first polling
`GetReplicas` fails — returning, alongside its error, a response that is
not the zero value. -/
def pollFailEnv : Env where
  get := fun k => if k = 0 then (⟨0, 2⟩, none) else (⟨7, 2⟩, some "lookup timeout")
  set := none

/-- An oracle on which the initial `GetReplicas` succeeds with four
available replicas. -/
def readyEnv : Env where
  get := fun _ => (⟨4, 2⟩, none)
  set := none

/-- An oracle on which the initial `GetReplicas` succeeds with zero
available replicas and `MinReplicas` five. -/
def minFiveEnv : Env where
  get := fun _ => (⟨0, 5⟩, none)
  set := none

/-- An oracle on which every `GetReplicas` call fails. -/
def getFailEnv : Env where
  get := fun _ => (⟨0, 0⟩, some "no such function")
  set := none

theorem pollLoop_inv (fn : String) (get : Nat → ServiceQueryResponse × Option GoError) :
    ∀ n idx r, (pollLoop fn get idx n).1 = some r →
      r.found = true ∧ (r.error = none → r.available = true) := by
  intro n
  induction n with
  | zero => intro idx r h; simp [pollLoop] at h
  | succ n ih =>
    intro idx r h
    rcases hg : get idx with ⟨qr, e⟩
    rw [pollLoop, hg] at h
    cases e with
    | some e0 => simp at h; subst h; simp
    | none =>
      by_cases hz : qr.availableReplicas > 0
      · simp [hz] at h; subst h; simp
      · simp [hz] at h
        exact ih (idx + 1) r h

theorem pollLoop_writes (fn : String) (get : Nat → ServiceQueryResponse × Option GoError) :
    ∀ n idx, (pollLoop fn get idx n).2.1 =
      (List.range (pollLoop fn get idx n).2.2).map fun k => (fn, (get (idx + k)).1) := by
  intro n
  induction n with
  | zero => intro idx; simp [pollLoop]
  | succ n ih =>
    intro idx
    rcases hg : get idx with ⟨qr, e⟩
    rw [pollLoop, hg]
    cases e with
    | some e0 => simp [show List.range 1 = [0] from rfl, hg]
    | none =>
      by_cases hz : qr.availableReplicas > 0
      · simp [show List.range 1 = [0] from rfl, hz, hg]
      · rcases hp : pollLoop fn get (idx + 1) n with ⟨r, ws, g⟩
        have hws := ih (idx + 1)
        rw [hp] at hws
        simp only at hws
        simp only [hz, if_false, hp]
        rw [List.range_succ_eq_map, List.map_cons, List.map_map, hws]
        congr 1
        · simp [hg]
        · apply List.map_congr_left
          intro k _
          simp [Function.comp]
          congr 2
          omega

theorem pollLoop_first_failure (fn : String)
    (get : Nat → ServiceQueryResponse × Option GoError) :
    ∀ j idx n r e,
      (∀ k, k < j → (get (idx + k)).2 = none ∧ (get (idx + k)).1.availableReplicas = 0) →
      get (idx + j) = (r, some e) → j < n →
      (pollLoop fn get idx n).1 = some ⟨false, some e, true⟩ ∧
        (pollLoop fn get idx n).2.2 = j + 1 := by
  intro j
  induction j with
  | zero =>
    intro idx n r e _ hf hn
    rcases n with _ | m
    · omega
    · rw [Nat.add_zero] at hf
      rw [pollLoop, hf]
      simp
  | succ j ih =>
    intro idx n r e hz hf hn
    rcases n with _ | m
    · omega
    · have h0 := hz 0 (Nat.succ_pos j)
      rw [Nat.add_zero] at h0
      rcases hg : get idx with ⟨qr, e0⟩
      rw [hg] at h0
      simp only at h0
      rcases h0 with ⟨he0, hqr⟩
      subst he0
      rw [pollLoop, hg]
      simp only [hqr, gt_iff_lt, Nat.lt_irrefl, if_false]
      have hz1 : ∀ k, k < j → (get (idx + 1 + k)).2 = none ∧
          (get (idx + 1 + k)).1.availableReplicas = 0 := by
        intro k hk
        have := hz (k + 1) (by omega)
        rwa [show idx + (k + 1) = idx + 1 + k by omega] at this
      have hf1 : get (idx + 1 + j) = (r, some e) := by
        rwa [show idx + 1 + j = idx + (j + 1) by omega]
      have := ih (idx + 1) m r e hz1 hf1 (by omega)
      rcases hp : pollLoop fn get (idx + 1) m with ⟨r0, ws, g⟩
      rw [hp] at this
      simp only at this ⊢
      exact ⟨this.1, by rw [this.2]⟩

theorem scale_result_cases (cfg : ScalingConfig) (env : Env) (fn : String) :
    (∃ e, (env.get 0).2 = some e ∧ (Scale cfg env fn).result = ⟨false, some e, false⟩) ∨
    ((env.get 0).2 = none ∧ (Scale cfg env fn).result.found = true ∧
      ((Scale cfg env fn).result.error = none →
        (Scale cfg env fn).result.available = true)) := by
  rcases hg : env.get 0 with ⟨qr, e⟩
  cases e with
  | some e0 =>
    left
    exact ⟨e0, rfl, by simp [Scale, hg]⟩
  | none =>
    right
    refine ⟨rfl, ?_⟩
    by_cases hz : qr.availableReplicas = 0
    · cases hs : env.set with
      | some e1 => simp [Scale, hg, hz, hs]
      | none =>
        rcases hp : pollLoop fn env.get 1 cfg.maxPollCount with ⟨r, ws, g⟩
        cases r with
        | none => simp [Scale, hg, hz, hs, hp]
        | some res =>
          have hinv := pollLoop_inv fn env.get cfg.maxPollCount 1 res (by rw [hp])
          simp [Scale, hg, hz, hs, hp]
          exact ⟨hinv.1, hinv.2⟩
    · simp [Scale, hg, beq_iff_eq, hz]

theorem strContains_body_name (fn e : String) : strContains fn (notFoundBody fn e) :=
  ⟨"error finding function ", ": " ++ e, (String.append_assoc _ _ _)⟩

theorem strContains_body_errText (fn e : String) : strContains e (notFoundBody fn e) :=
  ⟨"error finding function " ++ fn ++ ": ", "", (String.append_empty _).symm⟩

/-- C1: at an input satisfying the claim's hypotheses — initial
`GetReplicas` succeeds with zero available replicas, `SetReplicas`
succeeds, and every one of the `MaxPollCount = 2` polling `GetReplicas`
calls succeeds with zero available replicas — `Scale` does NOT return
`Available=false`: the loop exhausts its budget, control falls through to
the final `return`, and the result is `Available=true, Found=true,
Error=nil`, so the handler forwards the request downstream.  This
contradicts the claim (and the doc comment of `MakeScalingHandler`, which
promises that `next` is not invoked when the function is not ready after
the configured attempts). -/
theorem scale_timeout_passes_request :
    (Scale ⟨2⟩ timeoutEnv "figlet").result = ⟨true, none, true⟩ ∧
    (Scale ⟨2⟩ timeoutEnv "figlet").getCount = 3 ∧
    scalingHandler "figlet" (Scale ⟨2⟩ timeoutEnv "figlet").result =
      HandlerAction.forward := by
  decide

/-- C2: when the initial `GetReplicas` succeeds with zero available
replicas and `SetReplicas` fails with message `boom`, `Scale` returns
`Found=true, Available=false` and a non-nil error — but the error wraps
the nil pre-scale query error (`%!s(<nil>)`), not the `SetReplicas` call's
own failure: it is not the message `scaleErrMessage` would build from
`boom`. -/
theorem scale_set_failure_wraps_query_error :
    (Scale ⟨5⟩ setFailEnv "figlet").result =
      ⟨false, some "unable to scale function [figlet], err: %!s(<nil>)", true⟩ ∧
    (Scale ⟨5⟩ setFailEnv "figlet").result.error ≠
      some (scaleErrMessage "figlet" (some "boom")) := by
  decide

/-- C3: every `FunctionScaleResult` returned by `Scale` with `Error=nil`
has `Available=true` and `Found=true`; in particular `Scale` never returns
the shape `{Available:false, Found:true, Error:nil}`, so the handler
branch of `MakeScalingHandler` that writes no response (`silentTimeout`)
is unreachable. -/
theorem scale_nil_error_means_ready (cfg : ScalingConfig) (env : Env) (fn : String) :
    ((Scale cfg env fn).result.error = none →
      (Scale cfg env fn).result.available = true ∧ (Scale cfg env fn).result.found = true) ∧
    scalingHandler fn (Scale cfg env fn).result ≠ HandlerAction.silentTimeout := by
  rcases scale_result_cases cfg env fn with ⟨e, he, hr⟩ | ⟨he, hf, himp⟩
  · constructor
    · intro h0
      rw [hr] at h0
      simp at h0
    · rw [hr]
      simp [scalingHandler]
  · constructor
    · intro h0
      exact ⟨himp h0, hf⟩
    · cases he2 : (Scale cfg env fn).result.error with
      | some e1 => simp [scalingHandler, hf, he2]
      | none =>
        have hav := himp he2
        simp [scalingHandler, hf, he2, hav]

/-- C4: when the initial `GetReplicas` succeeds with
`AvailableReplicas > 0`, `Scale` returns `Available=true, Found=true,
Error=nil`, never calls `SetReplicas` (`setCalls = []`) and performs no
polling (`getCount = 1`, one single cache write). -/
theorem scale_available_at_first_query (cfg : ScalingConfig) (env : Env) (fn : String)
    (resp : ServiceQueryResponse)
    (h : env.get 0 = (resp, none)) (hpos : 0 < resp.availableReplicas) :
    Scale cfg env fn =
      { result := ⟨true, none, true⟩, cacheWrites := [(fn, resp)],
        getCount := 1, setCalls := [] } := by
  simp [Scale, h, beq_iff_eq, Nat.pos_iff_ne_zero.mp hpos]

/-- C4 (witness): on `readyEnv`, whose initial query reports four
available replicas, `Scale` returns ready at once, with no `SetReplicas`
call and a single `GetReplicas` call. -/
theorem scale_available_at_first_query_check :
    Scale ⟨3⟩ readyEnv "figlet" =
      { result := ⟨true, none, true⟩, cacheWrites := [("figlet", ⟨4, 2⟩)],
        getCount := 1, setCalls := [] } :=
  scale_available_at_first_query ⟨3⟩ readyEnv "figlet" ⟨4, 2⟩ rfl (by decide)

/-- C5: if the first `GetReplicas` call fails with error `e`, `Scale`
returns `Found=false, Available=false, Error=e`; and a result with
`Found=false` arises only when the first call failed. -/
theorem scale_first_query_failure (cfg : ScalingConfig) (env : Env) (fn : String) :
    (∀ e, (env.get 0).2 = some e → (Scale cfg env fn).result = ⟨false, some e, false⟩) ∧
    ((Scale cfg env fn).result.found = false → (env.get 0).2 ≠ none) := by
  rcases scale_result_cases cfg env fn with ⟨e, he, hr⟩ | ⟨he, hf, _⟩
  · constructor
    · intro e1 he1
      have : some e = some e1 := he.symm.trans he1
      cases this
      exact hr
    · intro _
      rw [he]
      simp
  · constructor
    · intro e1 he1
      rw [he] at he1
      cases he1
    · intro hf0
      simp [hf] at hf0

/-- C6: when the initial query succeeds with zero replicas, `SetReplicas`
succeeds, the first `j` polling queries succeed with zero replicas and the
next polling query fails with error `e` within the poll budget, `Scale`
returns `Found=true, Available=false, Error=e` immediately: exactly
`j + 2` `GetReplicas` calls are made (the initial one plus `j + 1` polls),
no further polling attempts. -/
theorem scale_poll_query_failure (cfg : ScalingConfig) (env : Env) (fn : String)
    (j : Nat) (r : ServiceQueryResponse) (e : GoError)
    (h0 : (env.get 0).2 = none) (h0z : (env.get 0).1.availableReplicas = 0)
    (hset : env.set = none)
    (hz : ∀ k, k < j → (env.get (1 + k)).2 = none ∧
      (env.get (1 + k)).1.availableReplicas = 0)
    (hf : env.get (1 + j) = (r, some e))
    (hj : j < cfg.maxPollCount) :
    (Scale cfg env fn).result = ⟨false, some e, true⟩ ∧
      (Scale cfg env fn).getCount = j + 2 := by
  have hpoll := pollLoop_first_failure fn env.get j 1 cfg.maxPollCount r e hz hf hj
  rcases hq : env.get 0 with ⟨qr, e0⟩
  rw [hq] at h0 h0z
  cases e0 with
  | some e1 => simp at h0
  | none =>
    simp only at h0z
    rcases hp : pollLoop fn env.get 1 cfg.maxPollCount with ⟨r0, ws, g⟩
    rw [hp] at hpoll
    simp only at hpoll
    constructor
    · simp [Scale, hq, h0z, hset, hp, hpoll.1]
    · simp [Scale, hq, h0z, hset, hp, hpoll.2]
      omega

/-- C6 (witness): on `pollFailEnv`, whose first polling query fails with
`lookup timeout`, `Scale` stops after the failing poll — two `GetReplicas`
calls in total — and surfaces that error with `Found=true,
Available=false`. -/
theorem scale_poll_query_failure_check :
    (Scale ⟨3⟩ pollFailEnv "figlet").result = ⟨false, some "lookup timeout", true⟩ ∧
      (Scale ⟨3⟩ pollFailEnv "figlet").getCount = 2 :=
  scale_poll_query_failure ⟨3⟩ pollFailEnv "figlet" 0 ⟨7, 2⟩ "lookup timeout"
    rfl rfl rfl (fun k hk => absurd hk (Nat.not_lt_zero k)) rfl (by decide)

/-- C7: whenever `Scale` issues a `SetReplicas` call, the initial query
succeeded with `AvailableReplicas = 0`, and the single call requests
`MinReplicas` from that observation when it is positive and `1`
otherwise. -/
theorem scale_set_request (cfg : ScalingConfig) (env : Env) (fn : String)
    (h : (Scale cfg env fn).setCalls ≠ []) :
    (env.get 0).2 = none ∧ (env.get 0).1.availableReplicas = 0 ∧
    (Scale cfg env fn).setCalls =
      [(fn, if 0 < (env.get 0).1.minReplicas then (env.get 0).1.minReplicas else 1)] := by
  rcases hg : env.get 0 with ⟨qr, e⟩
  cases e with
  | some e0 =>
    exact absurd (by simp [Scale, hg]) h
  | none =>
    by_cases hz : qr.availableReplicas = 0
    · refine ⟨rfl, hz, ?_⟩
      cases hs : env.set with
      | some e1 => simp [Scale, hg, hz, hs]
      | none =>
        rcases hp : pollLoop fn env.get 1 cfg.maxPollCount with ⟨r, ws, g⟩
        simp [Scale, hg, hz, hs, hp]
    · exact absurd (by simp [Scale, hg, beq_iff_eq, hz]) h

/-- C7 (witness): on `minFiveEnv`, whose initial query reports zero
available replicas and `MinReplicas = 5`, `Scale` issues exactly one
`SetReplicas` call requesting five replicas. -/
theorem scale_set_request_check :
    (minFiveEnv.get 0).2 = none ∧ (minFiveEnv.get 0).1.availableReplicas = 0 ∧
    (Scale ⟨2⟩ minFiveEnv "figlet").setCalls =
      [("figlet", if 0 < (minFiveEnv.get 0).1.minReplicas
        then (minFiveEnv.get 0).1.minReplicas else 1)] :=
  scale_set_request ⟨2⟩ minFiveEnv "figlet" (by decide)

/-- C8: whenever the `Scale` result for a request has `Found=false`, the
handler responds with status 404 and a plaintext body that contains both
the function name and the error text, and does not invoke the downstream
handler (the action is `respond`, not `forward`). -/
theorem handler_not_found_responds (cfg : ScalingConfig) (env : Env) (fn : String)
    (h : (Scale cfg env fn).result.found = false) :
    ∃ e, (Scale cfg env fn).result.error = some e ∧
      scalingHandler fn (Scale cfg env fn).result =
        HandlerAction.respond 404 (notFoundBody fn e) ∧
      strContains fn (notFoundBody fn e) ∧ strContains e (notFoundBody fn e) := by
  rcases scale_result_cases cfg env fn with ⟨e, he, hr⟩ | ⟨he, hf, _⟩
  · refine ⟨e, by rw [hr], ?_, strContains_body_name fn e, strContains_body_errText fn e⟩
    rw [hr]
    simp [scalingHandler]
  · exact absurd h (by simp [hf])

/-- C8 (witness): on `getFailEnv`, whose initial query fails with
`no such function`, the handler responds 404 with a body carrying the
function name and that error text. -/
theorem handler_not_found_responds_check :
    ∃ e, (Scale ⟨3⟩ getFailEnv "figlet").result.error = some e ∧
      scalingHandler "figlet" (Scale ⟨3⟩ getFailEnv "figlet").result =
        HandlerAction.respond 404 (notFoundBody "figlet" e) ∧
      strContains "figlet" (notFoundBody "figlet" e) ∧
      strContains e (notFoundBody "figlet" e) :=
  handler_not_found_responds ⟨3⟩ getFailEnv "figlet" (by decide)

/-- C9 (counterexample): on `pollFailEnv` the first polling `GetReplicas`
call fails, and the cache write recorded for that failed call stores the
observation the call returned — `⟨7, 2⟩`, which is not the zero-value
observation `⟨0, 0⟩`.  So "on a failed polling call the zero-value
observation is stored" is false of the code: the code stores whatever the
call returned. -/
theorem scale_cache_write_on_failed_poll :
    (Scale ⟨3⟩ pollFailEnv "figlet").cacheWrites =
      [("figlet", ⟨0, 2⟩), ("figlet", ⟨7, 2⟩)] ∧
    (Scale ⟨3⟩ pollFailEnv "figlet").result.error = some "lookup timeout" ∧
    (⟨7, 2⟩ : ServiceQueryResponse) ≠ (⟨0, 0⟩ : ServiceQueryResponse) := by
  decide

/-- C9 (amended): during every `Scale` call, no cache write happens when
the initial `GetReplicas` fails; otherwise the cache entry for the
function name is overwritten once per `GetReplicas` call — after the
initial query and after every polling query whether it succeeded or
failed — each write storing the observation that call returned. -/
theorem scale_cache_writes (cfg : ScalingConfig) (env : Env) (fn : String) :
    ((env.get 0).2 ≠ none → (Scale cfg env fn).cacheWrites = []) ∧
    ((env.get 0).2 = none →
      (Scale cfg env fn).cacheWrites =
        (List.range (Scale cfg env fn).getCount).map fun k => (fn, (env.get k).1)) := by
  rcases hg : env.get 0 with ⟨qr, e⟩
  cases e with
  | some e0 =>
    constructor
    · intro _
      simp [Scale, hg]
    · intro h0
      simp at h0
  | none =>
    constructor
    · intro h0
      simp at h0
    · intro _
      by_cases hz : qr.availableReplicas = 0
      · cases hs : env.set with
        | some e1 =>
          simp [Scale, hg, hz, hs, show List.range 1 = [0] from rfl]
        | none =>
          rcases hp : pollLoop fn env.get 1 cfg.maxPollCount with ⟨r, ws, g⟩
          have hws := pollLoop_writes fn env.get cfg.maxPollCount 1
          rw [hp] at hws
          simp only at hws
          simp only [Scale, hg, hz, hs, hp, beq_self_eq_true, if_true]
          rw [Nat.add_comm 1 g, List.range_succ_eq_map, List.map_cons, List.map_map, hws]
          congr 1
          · simp [hg]
          · apply List.map_congr_left
            intro k _
            simp [Function.comp]
            congr 2
            omega
      · simp [Scale, hg, beq_iff_eq, hz, show List.range 1 = [0] from rfl]

/-- C10: every `FunctionScaleResult` returned by `Scale` with `Found=false`
carries a non-nil `Error`, so the handler's unguarded
`res.Error.Error()` call in its not-found branch never dereferences a nil
error: the handler action is never `nilErrorDeref`. -/
theorem scale_not_found_has_error (cfg : ScalingConfig) (env : Env) (fn : String) :
    ((Scale cfg env fn).result.found = false → (Scale cfg env fn).result.error ≠ none) ∧
    scalingHandler fn (Scale cfg env fn).result ≠ HandlerAction.nilErrorDeref := by
  rcases scale_result_cases cfg env fn with ⟨e, he, hr⟩ | ⟨he, hf, _⟩
  · rw [hr]
    constructor
    · intro _
      simp
    · simp [scalingHandler]
  · constructor
    · intro h0
      simp [hf] at h0
    · cases he2 : (Scale cfg env fn).result.error with
      | some e1 => simp [scalingHandler, hf, he2]
      | none =>
        by_cases hav : (Scale cfg env fn).result.available <;>
          simp [scalingHandler, hf, he2, hav]

end Faas
